import Mathlib

/-!
Verification of the subprocess transport layer of a Python SDK that drives an
AI-coding CLI as a subprocess.  The definitions below are a shallow embedding
of `_internal/transport/subprocess_cli.py`,
`_internal/transport/subprocess_stateful_cli.py` and
`_internal/transport/sdk_control.py`: the stdout-reading loop of
`SubprocessCLITransport.receive_messages`, the streaming reader of
`StatefulCLITransport._execute_streaming_command`, the CLI locator
`_find_cli`, command building, connect/disconnect, session-id tracking, and
the SDK-MCP bridge transports.  Python's `json.loads` is modelled by an
executable JSON value parser restricted to integer numerals (no fractional or
exponent forms); all inputs evaluated concretely below stay inside that
fragment.
-/

/-- A JSON value as produced by `json.loads`, with numbers restricted to
integers. -/
inductive JVal where
  | null : JVal
  | bool : Bool → JVal
  | num : Int → JVal
  | str : String → JVal
  | arr : List JVal → JVal
  | obj : List (String × JVal) → JVal
deriving Repr

/-- JSON whitespace characters (the set Python's `json` module skips). -/
def isJsonWs (c : Char) : Bool :=
  c = ' ' || c = '\t' || c = '\n' || c = '\r'

/-- Drop leading JSON whitespace. -/
def skipWs : List Char → List Char
  | [] => []
  | c :: cs => if isJsonWs c then skipWs cs else c :: cs

/-- Value of a hexadecimal digit, if the character is one. -/
def hexDigit (c : Char) : Option Nat :=
  if '0' ≤ c ∧ c ≤ '9' then some (c.toNat - '0'.toNat)
  else if 'a' ≤ c ∧ c ≤ 'f' then some (c.toNat - 'a'.toNat + 10)
  else if 'A' ≤ c ∧ c ≤ 'F' then some (c.toNat - 'A'.toNat + 10)
  else none

/-- Parse the body of a JSON string literal (the opening quote already
consumed), handling backslash escapes; raw control characters are rejected,
as in Python's strict mode. -/
def parseStringBody : Nat → List Char → List Char → Option (String × List Char)
  | 0, _, _ => none
  | _ + 1, [], _ => none
  | _ + 1, '"' :: rest, acc => some (⟨acc.reverse⟩, rest)
  | fuel + 1, '\\' :: rest, acc =>
    match rest with
    | [] => none
    | e :: rest1 =>
      if e = '"' then parseStringBody fuel rest1 ('"' :: acc)
      else if e = '\\' then parseStringBody fuel rest1 ('\\' :: acc)
      else if e = '/' then parseStringBody fuel rest1 ('/' :: acc)
      else if e = 'b' then parseStringBody fuel rest1 ('\x08' :: acc)
      else if e = 'f' then parseStringBody fuel rest1 ('\x0c' :: acc)
      else if e = 'n' then parseStringBody fuel rest1 ('\n' :: acc)
      else if e = 'r' then parseStringBody fuel rest1 ('\r' :: acc)
      else if e = 't' then parseStringBody fuel rest1 ('\t' :: acc)
      else if e = 'u' then
        match rest1 with
        | h1 :: h2 :: h3 :: h4 :: rest2 =>
          match hexDigit h1, hexDigit h2, hexDigit h3, hexDigit h4 with
          | some a, some b, some c, some d =>
            let n := ((a * 16 + b) * 16 + c) * 16 + d
            if n < 0xd800 then parseStringBody fuel rest2 (Char.ofNat n :: acc)
            else none
          | _, _, _, _ => none
        | _ => none
      else none
  | fuel + 1, c :: rest, acc =>
    if c.toNat < 0x20 then none else parseStringBody fuel rest (c :: acc)

/-- Split a maximal run of decimal digits off the front of the input. -/
def splitDigits : List Char → List Char × List Char
  | [] => ([], [])
  | c :: cs =>
    if c.isDigit then
      let (ds, r) := splitDigits cs
      (c :: ds, r)
    else ([], c :: cs)

/-- Numeric value of a digit string. -/
def digitsToNat (ds : List Char) : Nat :=
  ds.foldl (fun acc c => acc * 10 + (c.toNat - '0'.toNat)) 0

/-- Reject a trailing fraction or exponent (floats are outside the modelled
fragment), otherwise return the integer. -/
def numTail (n : Int) (rest : List Char) : Option (Int × List Char) :=
  match rest with
  | c :: _ => if c = '.' || c = 'e' || c = 'E' then none else some (n, rest)
  | [] => some (n, rest)

/-- Parse a JSON number starting at the first character: an optional minus
sign, then either a lone zero or a nonzero-leading digit run. -/
def parseNumber (cs : List Char) : Option (Int × List Char) :=
  let (neg, cs1) : Bool × List Char :=
    match cs with
    | '-' :: r => (true, r)
    | _ => (false, cs)
  match cs1 with
  | '0' :: rest => numTail (if neg then 0 else 0) rest
  | c :: _ =>
    if c.isDigit then
      let (ds, rest) := splitDigits cs1
      let n : Int := digitsToNat ds
      numTail (if neg then -n else n) rest
    else none
  | [] => none

mutual

/-- Parse one JSON value (fuel-bounded; `loads` supplies enough fuel). -/
def parseVal : Nat → List Char → Option (JVal × List Char)
  | 0, _ => none
  | fuel + 1, cs =>
    match skipWs cs with
    | [] => none
    | c :: rest =>
      if c = '"' then
        match parseStringBody (rest.length + 1) rest [] with
        | some (s, r) => some (JVal.str s, r)
        | none => none
      else if c = '{' then
        match skipWs rest with
        | '}' :: r => some (JVal.obj [], r)
        | _ =>
          match parseObjItems fuel rest with
          | some (kvs, r) => some (JVal.obj kvs, r)
          | none => none
      else if c = '[' then
        match skipWs rest with
        | ']' :: r => some (JVal.arr [], r)
        | _ =>
          match parseArrItems fuel rest with
          | some (vs, r) => some (JVal.arr vs, r)
          | none => none
      else if c = 't' then
        match rest with
        | 'r' :: 'u' :: 'e' :: r => some (JVal.bool true, r)
        | _ => none
      else if c = 'f' then
        match rest with
        | 'a' :: 'l' :: 's' :: 'e' :: r => some (JVal.bool false, r)
        | _ => none
      else if c = 'n' then
        match rest with
        | 'u' :: 'l' :: 'l' :: r => some (JVal.null, r)
        | _ => none
      else
        match parseNumber (c :: rest) with
        | some (n, r) => some (JVal.num n, r)
        | none => none

/-- Parse the members of a JSON object after the opening brace (at least one
member; the empty object is handled by `parseVal`). -/
def parseObjItems : Nat → List Char → Option (List (String × JVal) × List Char)
  | 0, _ => none
  | fuel + 1, cs =>
    match skipWs cs with
    | '"' :: rest =>
      match parseStringBody (rest.length + 1) rest [] with
      | none => none
      | some (k, r1) =>
        match skipWs r1 with
        | ':' :: r2 =>
          match parseVal fuel r2 with
          | none => none
          | some (v, r3) =>
            match skipWs r3 with
            | ',' :: r4 =>
              match parseObjItems fuel r4 with
              | some (kvs, r5) => some ((k, v) :: kvs, r5)
              | none => none
            | '}' :: r4 => some ([(k, v)], r4)
            | _ => none
        | _ => none
    | _ => none

/-- Parse the elements of a JSON array after the opening bracket (at least
one element; the empty array is handled by `parseVal`). -/
def parseArrItems : Nat → List Char → Option (List JVal × List Char)
  | 0, _ => none
  | fuel + 1, cs =>
    match parseVal fuel cs with
    | none => none
    | some (v, r1) =>
      match skipWs r1 with
      | ',' :: r2 =>
        match parseArrItems fuel r2 with
        | some (vs, r3) => some (v :: vs, r3)
        | none => none
      | ']' :: r2 => some ([v], r2)
      | _ => none

end

/-- Model of Python's `json.loads`: parse one value and require only
whitespace to remain. -/
def loads (s : String) : Option JVal :=
  match parseVal (s.length + 1) s.data with
  | some (v, rest) => if skipWs rest = [] then some v else none
  | none => none

/-- Whitespace stripped by Python's `str.strip`. -/
def isPyWs (c : Char) : Bool :=
  c = ' ' || c = '\t' || c = '\n' || c = '\r' || c = '\x0b' || c = '\x0c'

/-- Model of Python's `str.strip`. -/
def pyStrip (s : String) : String :=
  ⟨((s.data.dropWhile isPyWs).reverse.dropWhile isPyWs).reverse⟩

/-- Model of Python's `str.lower` for the ASCII text handled here. -/
def pyLower (s : String) : String :=
  ⟨s.data.map Char.toLower⟩

/-- Check whether `needle` occurs as a contiguous run inside the list. -/
def infixAux (needle : List Char) : List Char → Bool
  | [] => needle.isEmpty
  | c :: cs => needle.isPrefixOf (c :: cs) || infixAux needle cs

/-- Model of the Python `in` operator on strings: substring containment. -/
def containsSub (hay needle : String) : Bool :=
  infixAux needle.data hay.data

/-- Net brace count `line_str.count("\x7b") - line_str.count("\x7d")` as
computed in `receive_messages` (naive: counts braces anywhere, including
inside string literals). -/
def braceNet (s : String) : Int :=
  (s.data.count '{' : Int) - (s.data.count '}' : Int)

/-- Net bracket count `line_str.count("[") - line_str.count("]")` as computed
in `receive_messages`. -/
def bracketNet (s : String) : Int :=
  (s.data.count '[' : Int) - (s.data.count ']' : Int)

/-- Test `line_str.startswith("\x7b") or line_str.startswith("[")`. -/
def startsJson (s : String) : Bool :=
  match s.data with
  | c :: _ => c = '{' || c = '['
  | [] => false

/-- Mutable reading state of `SubprocessCLITransport.receive_messages`: the
`json_buffer` carry for incomplete JSON, and the values yielded so far. -/
structure ReadState where
  json_buffer : String
  yields : List JVal
deriving Repr

/-- Reading state at entry of `receive_messages`. -/
def initReadState : ReadState := ⟨"", []⟩

/-- How a `receive_messages` run ends: normally, with a `CLIJSONDecodeError`
carrying the offending text, or with a `ProcessError` carrying the exit code
and collected stderr. -/
inductive StreamEnd where
  | normal : StreamEnd
  | decodeError : String → StreamEnd
  | processError : Int → String → StreamEnd
deriving Repr

/-- Result of a `receive_messages` run: the yielded values and how the
generator ended. -/
structure RunResult where
  yields : List JVal
  ends : StreamEnd
deriving Repr

/-- One iteration of the `async for line in self._stdout_stream` loop of
`receive_messages` on one received chunk: strip, skip if empty, prepend the
carry, try `json.loads`; on failure buffer a net-open brace/bracket fragment
that starts with a brace or bracket, raise `CLIJSONDecodeError` on a balanced
one, and skip anything else.  An `.error` result is the raised exception,
carrying the yields so far and the offending text. -/
def processChunk (st : ReadState) (chunk : String) :
    Except (ReadState × String) ReadState :=
  if pyStrip chunk = "" then .ok st
  else
    match loads (st.json_buffer ++ pyStrip chunk) with
    | some data => .ok ⟨"", st.yields ++ [data]⟩
    | none =>
      if startsJson (st.json_buffer ++ pyStrip chunk) then
        if braceNet (st.json_buffer ++ pyStrip chunk) > 0 ∨
            bracketNet (st.json_buffer ++ pyStrip chunk) > 0 then
          .ok ⟨st.json_buffer ++ pyStrip chunk, st.yields⟩
        else
          .error (⟨"", st.yields⟩, st.json_buffer ++ pyStrip chunk)
      else
        .ok ⟨"", st.yields⟩

/-- Run the stdout loop of `receive_messages` over a list of chunks, stopping
at the first raised `CLIJSONDecodeError`. -/
def processChunks (st : ReadState) : List String → Except (ReadState × String) ReadState
  | [] => .ok st
  | c :: cs =>
    match processChunk st c with
    | .ok st1 => processChunks st1 cs
    | .error e => .error e

/-- Stderr collection of `receive_messages`: each received stderr chunk is
stripped and the lines are joined with a line feed. -/
def stderrJoined (stderrChunks : List String) : String :=
  String.intercalate "\n" (stderrChunks.map pyStrip)

/-- Exit handling at the end of `receive_messages`: after `process.wait()`, a
`ProcessError` is raised when the exit code is nonzero and the collected
stderr is nonempty and contains "error" after lowercasing. -/
def afterStream (ys : List JVal) (returncode : Int) (stderrChunks : List String) :
    RunResult :=
  let stderr_output := stderrJoined stderrChunks
  if returncode ≠ 0 ∧ stderr_output ≠ "" ∧ containsSub (pyLower stderr_output) "error" = true
  then ⟨ys, .processError returncode stderr_output⟩
  else ⟨ys, .normal⟩

/-- Model of `SubprocessCLITransport.receive_messages`, parameterised by the
chunks delivered by the stdout stream, the process exit code, and the chunks
delivered by the stderr stream: run the reading loop, then retry a leftover
carry once (raising `CLIJSONDecodeError` if it still fails to parse and
starts with a brace or bracket), then check the exit status. -/
def receive_messages (chunks : List String) (returncode : Int)
    (stderrChunks : List String) : RunResult :=
  match processChunks initReadState chunks with
  | .error (st, offending) => ⟨st.yields, .decodeError offending⟩
  | .ok st =>
    if st.json_buffer = "" then afterStream st.yields returncode stderrChunks
    else
      match loads st.json_buffer with
      | some data => afterStream (st.yields ++ [data]) returncode stderrChunks
      | none =>
        if startsJson st.json_buffer then ⟨st.yields, .decodeError st.json_buffer⟩
        else afterStream st.yields returncode stderrChunks

/-- Mutable reading state of the streaming loop in
`StatefulCLITransport._execute_streaming_command`. -/
structure StatefulReadState where
  json_buffer : String
  yields : List JVal
deriving Repr

/-- Inner loop body of `_execute_streaming_command`: strip one segment of a
chunk, skip it if empty, otherwise append it to the accumulation buffer and
try `json.loads`, yielding and resetting the buffer on success. -/
def processJsonLine (st : StatefulReadState) (jl : String) : StatefulReadState :=
  if pyStrip jl = "" then st
  else
    match loads (st.json_buffer ++ pyStrip jl) with
    | some data => ⟨"", st.yields ++ [data]⟩
    | none => ⟨st.json_buffer ++ pyStrip jl, st.yields⟩

/-- Split on line-feed characters, keeping empty segments, as Python's
`str.split("\n")` does. -/
def splitNlAux : List Char → List Char → List String
  | [], acc => [⟨acc.reverse⟩]
  | c :: cs, acc =>
    if c = '\n' then ⟨acc.reverse⟩ :: splitNlAux cs []
    else splitNlAux cs (c :: acc)

/-- Model of Python's `str.split("\n")`. -/
def pySplitNl (s : String) : List String := splitNlAux s.data []

/-- Outer loop body of `_execute_streaming_command` on one stdout chunk:
strip, skip if empty, split on line feeds and feed each segment to
`processJsonLine`. -/
def processStatefulChunk (st : StatefulReadState) (chunk : String) : StatefulReadState :=
  let line_str := pyStrip chunk
  if line_str = "" then st
  else (pySplitNl line_str).foldl processJsonLine st

/-- Values yielded by `StatefulCLITransport._execute_streaming_command` for a
given list of stdout chunks (exit-code handling elided; it follows the
yields). -/
def execute_streaming_command (chunks : List String) : List JVal :=
  (chunks.foldl processStatefulChunk ⟨"", []⟩).yields

/-- Invariant of the reading loop: the carry is empty, or it starts with a
brace or bracket and does not parse (it was stored by a failed parse). -/
def bufferInv (st : ReadState) : Prop :=
  st.json_buffer = "" ∨
    (startsJson st.json_buffer = true ∧ loads st.json_buffer = none)

/-- Modelled from the spec: the brace count "taken outside string literals
while tracking backslash escapes" that the specification prescribes; defined
only to compare the specified counting with the naive counting the code
performs. -/
def specBraceScan : List Char → Bool → Bool → Int → Int
  | [], _, _, n => n
  | c :: cs, inStr, esc, n =>
    if esc then specBraceScan cs inStr false n
    else if inStr then
      if c = '\\' then specBraceScan cs inStr true n
      else if c = '"' then specBraceScan cs false false n
      else specBraceScan cs inStr false n
    else if c = '"' then specBraceScan cs true false n
    else if c = '{' then specBraceScan cs inStr false (n + 1)
    else if c = '}' then specBraceScan cs inStr false (n - 1)
    else specBraceScan cs inStr false n

/-- Net open braces of a fragment under the spec's string-aware scan. -/
def specNetOpenBraces (s : String) : Int := specBraceScan s.data false false 0

/-- Pipes of a spawned subprocess handle: which standard streams were opened
as pipes, and whether the SDK's write end of stdin is still open. -/
structure ProcHandle where
  has_stdin : Bool
  has_stdout : Bool
  has_stderr : Bool
  stdin_open : Bool
deriving Repr, DecidableEq

/-- The transport attributes of `SubprocessCLITransport` that `connect` and
`disconnect` mutate: `_process`, `_stdout_stream`, `_stderr_stream` (the two
streams modelled as set or cleared). -/
structure TransportState where
  process : Option ProcHandle
  stdout_stream : Bool
  stderr_stream : Bool
deriving Repr, DecidableEq

/-- Attribute state right after `__init__`. -/
def initialTransportState : TransportState := ⟨none, false, false⟩

/-- Outcome of `anyio.open_process` with stdin, stdout and stderr all set to
`PIPE`: success (all three pipes present), `FileNotFoundError`, or any other
spawn failure. -/
inductive SpawnOutcome where
  | ok : SpawnOutcome
  | fileNotFound : SpawnOutcome
  | otherFailure : SpawnOutcome
deriving Repr, DecidableEq

/-- Error raised by `connect`: `CLINotFoundError` or `CLIConnectionError`. -/
inductive ConnectErr where
  | cliNotFound : ConnectErr
  | connectionError : ConnectErr
deriving Repr, DecidableEq

/-- Model of `SubprocessCLITransport.connect`: no-op if already connected;
otherwise spawn with three pipes, wrap stdout and stderr, write the prompt
followed by a line feed to stdin and close stdin.  The returned list is the
sequence of stdin writes.  `FileNotFoundError` maps to `CLINotFoundError`,
any other spawn failure to `CLIConnectionError`. -/
def connect (prompt : String) (st : TransportState) (sp : SpawnOutcome) :
    Except ConnectErr (TransportState × List String) :=
  if st.process.isSome then .ok (st, [])
  else
    match sp with
    | .fileNotFound => .error .cliNotFound
    | .otherFailure => .error .connectionError
    | .ok =>
      let p : ProcHandle := ⟨true, true, true, true⟩
      let stdout_stream := if p.has_stdout then true else st.stdout_stream
      let stderr_stream := if p.has_stderr then true else st.stderr_stream
      if p.has_stdin then
        .ok (⟨some { p with stdin_open := false }, stdout_stream, stderr_stream⟩,
          [prompt ++ "\n"])
      else
        .ok (⟨some p, stdout_stream, stderr_stream⟩, [])

/-- Model of `SubprocessCLITransport.disconnect`: no-op when there is no
process; otherwise terminate and clear the process handle and both wrapped
streams. -/
def disconnect (st : TransportState) : TransportState :=
  if st.process.isNone then st
  else ⟨none, false, false⟩

/-- Fully connected as observable on the attributes: process handle present
and both stream wrappers set. -/
def fullyConnectedB (st : TransportState) : Bool :=
  st.process.isSome && st.stdout_stream && st.stderr_stream

/-- Fully disconnected: process handle and both stream wrappers cleared. -/
def fullyDisconnectedB (st : TransportState) : Bool :=
  st.process.isNone && !st.stdout_stream && !st.stderr_stream

/-- A lifecycle call made by the host: `connect` (with its spawn outcome) or
`disconnect`. -/
inductive TransportOp where
  | connectOp : String → SpawnOutcome → TransportOp
  | disconnectOp : TransportOp

/-- Attribute state after a completed lifecycle call (a raising `connect`
leaves the attributes unchanged: the assignment never ran). -/
def applyOp (st : TransportState) : TransportOp → TransportState
  | .connectOp prompt sp =>
    match connect prompt st sp with
    | .ok r => r.1
    | .error _ => st
  | .disconnectOp => disconnect st

/-- Environment the CLI locator probes: `shutil.which`, path existence,
regular-file test and glob expansion. -/
structure CLIEnv where
  which : String → Option String
  pathExists : String → Bool
  isFile : String → Bool
  glob : String → List String

/-- The fixed ordered list of well-known install paths probed by
`_find_cli`. -/
def cliLocations (home : String) : List String :=
  [home ++ "/.npm-global/bin/claude",
   "/usr/local/bin/claude",
   home ++ "/.local/bin/claude",
   home ++ "/node_modules/.bin/claude",
   home ++ "/.yarn/bin/claude",
   "/opt/homebrew/bin/claude",
   "/usr/local/lib/node_modules/@anthropic-ai/claude-code/bin/claude",
   home ++ "/.nvm/versions/node/*/bin/claude",
   "node_modules/.bin/claude",
   "../node_modules/.bin/claude",
   home ++ "/.claude/local/claude",
   home ++ "/.claude/bin/claude"]

/-- Test for a glob pattern, as `"*" in str(path)`. -/
def hasStar (s : String) : Bool := s.data.contains '*'

/-- First glob expansion that exists and is a regular file. -/
def findGlobHit (env : CLIEnv) : List String → Option String
  | [] => none
  | g :: gs =>
    if env.pathExists g && env.isFile g then some g else findGlobHit env gs

/-- Probe the well-known locations in order: glob patterns are expanded and
each expansion tested; plain paths are tested directly. -/
def findFromLocations (env : CLIEnv) : List String → Option String
  | [] => none
  | p :: ps =>
    if hasStar p then
      match findGlobHit env (env.glob p) with
      | some g => some g
      | none => findFromLocations env ps
    else if env.pathExists p && env.isFile p then some p
    else findFromLocations env ps

/-- Installation-guidance message of `CLINotFoundError` when Node.js is
absent. -/
def nodeMissingMessage : String :=
  "Claude Code requires Node.js, which is not installed.\n\n" ++
  "Install Node.js from: https://nodejs.org/\n" ++
  "\nAfter installing Node.js, install Claude Code:\n" ++
  "  npm install -g @anthropic-ai/claude-code"

/-- Installation-guidance message of `CLINotFoundError` when Node.js is
present but the CLI is not. -/
def cliMissingMessage : String :=
  "Claude Code not found. Install with:\n" ++
  "  npm install -g @anthropic-ai/claude-code\n" ++
  "\nIf already installed locally, try:\n" ++
  "  export PATH=\"$HOME/node_modules/.bin:$PATH\"\n" ++
  "\nOr specify the path when creating transport:\n" ++
  "  SubprocessCLITransport(..., cli_path=\x27/path/to/claude\x27)"

/-- Model of `SubprocessCLITransport._find_cli`: consult the executable
search path for `claude`, then probe the well-known locations, then raise
`CLINotFoundError` whose message depends on whether `node` is installed. -/
def find_cli (env : CLIEnv) (home : String) : Except String String :=
  match env.which "claude" with
  | some cli => .ok cli
  | none =>
    match findFromLocations env (cliLocations home) with
    | some p => .ok p
    | none =>
      if (env.which "node").isSome then .error cliMissingMessage
      else .error nodeMissingMessage

/-- The option fields `_build_command` and `_build_message_command` read,
with Python falsiness rendered as empty string, empty list, zero or `false`;
the `--mcp-config` value is the already-serialised `mcpServers` JSON (`none`
models an empty server dict). -/
structure CCOptions where
  system_prompt : String
  append_system_prompt : String
  allowed_tools : List String
  max_turns : Nat
  disallowed_tools : List String
  model : String
  permission_prompt_tool_name : String
  permission_mode : String
  continue_conversation : Bool
  resume : String
  mcp_servers_config : Option String
deriving Repr, DecidableEq

/-- Model of `SubprocessCLITransport._build_command`: the prompt is never
placed on the argument vector (the function does not even receive it); it is
sent via stdin by `connect`. -/
def build_command (cli_path : String) (o : CCOptions) : List String :=
  [cli_path, "--output-format", "stream-json", "--verbose"]
  ++ (if o.system_prompt ≠ "" then ["--system-prompt", o.system_prompt] else [])
  ++ (if o.append_system_prompt ≠ "" then
        ["--append-system-prompt", o.append_system_prompt] else [])
  ++ (if o.allowed_tools ≠ [] then
        ["--allowedTools", String.intercalate "," o.allowed_tools] else [])
  ++ (if o.max_turns ≠ 0 then ["--max-turns", toString o.max_turns] else [])
  ++ (if o.disallowed_tools ≠ [] then
        ["--disallowedTools", String.intercalate "," o.disallowed_tools] else [])
  ++ (if o.model ≠ "" then ["--model", o.model] else [])
  ++ (if o.permission_prompt_tool_name ≠ "" then
        ["--permission-prompt-tool", o.permission_prompt_tool_name] else [])
  ++ (if o.permission_mode ≠ "" then ["--permission-mode", o.permission_mode] else [])
  ++ (if o.continue_conversation then ["--continue"] else [])
  ++ (if o.resume ≠ "" then ["--resume", o.resume] else [])
  ++ (match o.mcp_servers_config with
      | some cfg => ["--mcp-config", cfg]
      | none => [])

/-- Session-id bookkeeping of `StatefulCLITransport`: the original and
current session ids and whether a message has been sent. -/
structure SessionState where
  original_session_id : Option String
  current_session_id : Option String
  has_sent_messages : Bool
deriving Repr, DecidableEq

/-- The `--resume` part of the message command: present when the stored
original session id is truthy (Python: non-`None` and nonempty) and a
message has been sent. -/
def resumeArgs (sess : SessionState) : List String :=
  match sess.original_session_id with
  | some sid =>
    if sid ≠ "" ∧ sess.has_sent_messages then ["--resume", sid] else []
  | none => []

/-- Model of `StatefulCLITransport._build_message_command`: the prompt is
passed on the argument vector as `-p <content>`; `--resume` is appended when
the stored original session id is truthy and a message has been sent. -/
def build_message_command (cli_path content : String) (sess : SessionState)
    (stream : Bool) (o : CCOptions) : List String :=
  [cli_path, "-p", content]
  ++ resumeArgs sess
  ++ (if stream then ["--output-format", "stream-json", "--verbose"]
      else ["--output-format", "json"])
  ++ (if o.system_prompt ≠ "" then ["--system-prompt", o.system_prompt] else [])
  ++ (if o.append_system_prompt ≠ "" then
        ["--append-system-prompt", o.append_system_prompt] else [])
  ++ (if o.allowed_tools ≠ [] then
        ["--allowedTools", String.intercalate "," o.allowed_tools] else [])
  ++ (if o.disallowed_tools ≠ [] then
        ["--disallowedTools", String.intercalate "," o.disallowed_tools] else [])
  ++ (if o.model ≠ "" then ["--model", o.model] else [])
  ++ (if o.permission_mode ≠ "" then ["--permission-mode", o.permission_mode] else [])
  ++ (if o.max_turns ≠ 0 then ["--max-turns", toString o.max_turns] else [])
  ++ (match o.mcp_servers_config with
      | some cfg => ["--mcp-config", cfg]
      | none => [])

/-- Lookup of a key in a parsed JSON object (first binding wins); `none` on
non-objects. -/
def lookupKV : List (String × JVal) → String → Option JVal
  | [], _ => none
  | (k1, v) :: rest, k => if k1 = k then some v else lookupKV rest k

/-- Model of `message.get(key)` / `key in message` on a parsed envelope. -/
def jGet (m : JVal) (k : String) : Option JVal :=
  match m with
  | .obj kvs => lookupKV kvs k
  | _ => none

/-- Test `message.get("type") == "result"`. -/
def isResultType (m : JVal) : Bool :=
  match jGet m "type" with
  | some (JVal.str t) => t = "result"
  | _ => false

/-- Session update performed by `_send_user_message_streaming` on each
yielded message: a result envelope marks messages as sent and, when it
carries a `session_id`, overwrites both the original and the current stored
session id with it (string-valued session ids modelled; other messages leave
the state unchanged). -/
def update_on_stream_message (sess : SessionState) (m : JVal) : SessionState :=
  if isResultType m then
    match jGet m "session_id" with
    | some (JVal.str sid) => ⟨some sid, some sid, true⟩
    | _ => ⟨sess.original_session_id, sess.current_session_id, true⟩
  else sess

/-- Session update performed by `get_simple_response` on the parsed response:
messages are marked sent, and a present `session_id` overwrites both stored
ids. -/
def update_on_simple_response (sess : SessionState) (resp : JVal) : SessionState :=
  match jGet resp "session_id" with
  | some (JVal.str sid) => ⟨some sid, some sid, true⟩
  | _ => ⟨sess.original_session_id, sess.current_session_id, true⟩

/-- Accumulator step: the session id carried by the latest result envelope
seen so far. -/
def sessionIdStep (a : Option String) (m : JVal) : Option String :=
  if isResultType m then
    match jGet m "session_id" with
    | some (JVal.str sid) => some sid
    | _ => a
  else a

/-- Latest result-envelope session id of a message stream, starting from a
given accumulator. -/
def lastResultSessionIdFrom (acc : Option String) (msgs : List JVal) : Option String :=
  msgs.foldl sessionIdStep acc

/-- Latest result-envelope session id of a message stream. -/
def lastResultSessionId (msgs : List JVal) : Option String :=
  lastResultSessionIdFrom none msgs

/-- Observable state of an SDK-MCP bridge transport (`sdk_control.py`):
whether it is closed, whether an `onclose` callback is registered, how many
times `onclose` has fired, and the messages forwarded to the
`send_mcp_message` callback (`μ` is the JSONRPC message type). -/
structure ControlTransportState (μ : Type) where
  is_closed : Bool
  onclose_set : Bool
  onclose_calls : Nat
  callback_msgs : List μ
deriving Repr

/-- Model of `SdkControlClientTransport.close`: return immediately when
already closed, otherwise mark closed and fire `onclose` if registered. -/
def client_close {μ : Type} (st : ControlTransportState μ) : ControlTransportState μ :=
  if st.is_closed then st
  else
    { st with
      is_closed := true,
      onclose_calls :=
        if st.onclose_set then st.onclose_calls + 1 else st.onclose_calls }

/-- Model of `SdkControlServerTransport.close` (textually identical gating to
the client transport's `close`). -/
def server_close {μ : Type} (st : ControlTransportState μ) : ControlTransportState μ :=
  if st.is_closed then st
  else
    { st with
      is_closed := true,
      onclose_calls :=
        if st.onclose_set then st.onclose_calls + 1 else st.onclose_calls }

/-- Model of `SdkControlClientTransport.send`: raise
`RuntimeError("Transport is closed")` when closed, otherwise forward the
message to the `send_mcp_message` callback (the response forwarding to
`onmessage` is outside the modelled state). -/
def client_send {μ : Type} (st : ControlTransportState μ) (m : μ) :
    Except String (ControlTransportState μ) :=
  if st.is_closed then .error "Transport is closed"
  else .ok { st with callback_msgs := st.callback_msgs ++ [m] }

/-- Model of `SdkControlServerTransport.send`: same gating; the message is
passed to the `send_mcp_message` callback. -/
def server_send {μ : Type} (st : ControlTransportState μ) (m : μ) :
    Except String (ControlTransportState μ) :=
  if st.is_closed then .error "Transport is closed"
  else .ok { st with callback_msgs := st.callback_msgs ++ [m] }

-- Sanity checks on the `json.loads` model.
example : loads " \x7b\"a\": 1\x7d " = some (JVal.obj [("a", JVal.num 1)]) := rfl

example : loads "\x7b\"a\":1\x7d\n\x7b\"b\":2\x7d" = none := rfl

example : loads "\x7bbad\x7d" = none := rfl

example : loads "\x7b\"a\":" = none := rfl

example : loads "\x7b\"s\":\"\x7d\"\x7d" = some (JVal.obj [("s", JVal.str "\x7d")]) := rfl

example : loads "[1, true, null, \"x\"]"
    = some (JVal.arr [JVal.num 1, JVal.bool true, JVal.null, JVal.str "x"]) := rfl

example : loads "-12" = some (JVal.num (-12)) := rfl

example : loads "" = none := rfl

-- Sanity checks on the two readers.
example : (receive_messages ["\x7b\"a\":1\x7d"] 0 []).yields = [JVal.obj [("a", JVal.num 1)]] := rfl

example : receive_messages ["\x7b\"a\":1\x7d\n\x7b\"b\":2\x7d"] 0 []
    = ⟨[], .decodeError "\x7b\"a\":1\x7d\n\x7b\"b\":2\x7d"⟩ := rfl

example : execute_streaming_command ["\x7b\"a\":1\x7d\n\x7b\"b\":2\x7d"]
    = [JVal.obj [("a", JVal.num 1)], JVal.obj [("b", JVal.num 2)]] := rfl

example : (receive_messages ["\x7b\"a\":", "1\x7d"] 0 []).yields = [JVal.obj [("a", JVal.num 1)]] := rfl

example : receive_messages [] 1 ["Error: boom"] = ⟨[], .processError 1 "Error: boom"⟩ := rfl

example : receive_messages [] 1 ["something bad"] = ⟨[], .normal⟩ := rfl

example : receive_messages [] 0 ["error"] = ⟨[], .normal⟩ := rfl

/-- The exit-status check never changes the yielded values. -/
theorem afterStream_yields (ys : List JVal) (rc : Int) (sl : List String) :
    (afterStream ys rc sl).yields = ys := by
  simp only [afterStream]
  split <;> rfl

/-- Appending to the empty carry is the identity. -/
theorem empty_append_str (t : String) : ("" : String) ++ t = t := rfl

/-- A chunk whose combined line fails to parse but is net-open and starts
with a brace or bracket is retained as the new carry. -/
theorem processChunk_buffers (st : ReadState) (c : String)
    (h1 : pyStrip c ≠ "")
    (h2 : loads (st.json_buffer ++ pyStrip c) = none)
    (h3 : startsJson (st.json_buffer ++ pyStrip c) = true)
    (h4 : braceNet (st.json_buffer ++ pyStrip c) > 0 ∨
      bracketNet (st.json_buffer ++ pyStrip c) > 0) :
    processChunk st c = .ok ⟨st.json_buffer ++ pyStrip c, st.yields⟩ := by
  unfold processChunk
  rw [if_neg h1, h2, h3]
  simp only [if_true, if_pos h4]

/-- A chunk whose combined line parses is yielded and resets the carry. -/
theorem processChunk_yields (st : ReadState) (c : String) (v : JVal)
    (h1 : pyStrip c ≠ "")
    (h2 : loads (st.json_buffer ++ pyStrip c) = some v) :
    processChunk st c = .ok ⟨"", st.yields ++ [v]⟩ := by
  unfold processChunk
  rw [if_neg h1, h2]

/-- A chunk whose combined line fails to parse, starts with a brace or
bracket, and is brace/bracket-balanced raises `CLIJSONDecodeError`. -/
theorem processChunk_raises (st : ReadState) (c : String)
    (h1 : pyStrip c ≠ "")
    (h2 : loads (st.json_buffer ++ pyStrip c) = none)
    (h3 : startsJson (st.json_buffer ++ pyStrip c) = true)
    (h4 : ¬ (braceNet (st.json_buffer ++ pyStrip c) > 0 ∨
      bracketNet (st.json_buffer ++ pyStrip c) > 0)) :
    processChunk st c = .error (⟨"", st.yields⟩, st.json_buffer ++ pyStrip c) := by
  unfold processChunk
  rw [if_neg h1, h2, h3]
  simp only [if_true, if_neg h4]

/-- One loop iteration preserves the carry invariant. -/
theorem processChunk_inv (st : ReadState) (c : String) (st1 : ReadState)
    (h : processChunk st c = .ok st1) (hinv : bufferInv st) : bufferInv st1 := by
  unfold processChunk at h
  split at h
  case isTrue => cases h; exact hinv
  case isFalse =>
    split at h
    case h_1 => cases h; exact Or.inl rfl
    case h_2 heq =>
      split at h
      case isTrue hstart =>
        split at h
        case isTrue => cases h; exact Or.inr ⟨hstart, heq⟩
        case isFalse => cases h
      case isFalse => cases h; exact Or.inl rfl

/-- The whole reading loop preserves the carry invariant. -/
theorem processChunks_inv (chunks : List String) :
    ∀ st st1 : ReadState, processChunks st chunks = .ok st1 → bufferInv st → bufferInv st1 := by
  induction chunks with
  | nil => intro st st1 h hinv; cases h; exact hinv
  | cons c cs ih =>
    intro st st1 h hinv
    unfold processChunks at h
    cases hc : processChunk st c with
    | ok st2 =>
      rw [hc] at h
      exact ih st2 st1 h (processChunk_inv st c st2 hc hinv)
    | error e => rw [hc] at h; cases h

/-- C1: on a chunk holding two line-feed-separated JSON objects, the repo's
own unit tests expect `receive_messages` to yield both objects, but the code
applies `json.loads` to the whole stripped chunk, finds the naive
brace/bracket counts balanced, and raises `CLIJSONDecodeError` instead; the
stateful transport's reader, which does split chunks on line feeds, yields
both objects in order on the very same input. -/
theorem receive_messages_multi_object_chunk_divergence :
    receive_messages ["\x7b\"a\":1\x7d\n\x7b\"b\":2\x7d"] 0 []
      = ⟨[], .decodeError "\x7b\"a\":1\x7d\n\x7b\"b\":2\x7d"⟩ ∧
    execute_streaming_command ["\x7b\"a\":1\x7d\n\x7b\"b\":2\x7d"]
      = [JVal.obj [("a", JVal.num 1)], JVal.obj [("b", JVal.num 2)]] :=
  ⟨rfl, rfl⟩

/-- C2 counterexample: the first fragment of the object
`\x7b"s":"\x7d"\x7d` split after its sixth character fails to parse and is
net-open under the spec's string-literal-aware count (the closing brace sits
inside an unterminated string literal), yet `receive_messages` does not
retain it as carry: its naive count is balanced, so it raises
`CLIJSONDecodeError` and yields nothing for the object. -/
theorem receive_messages_string_brace_counterexample :
    loads "\x7b\"s\":\"\x7d" = none ∧
    specNetOpenBraces "\x7b\"s\":\"\x7d" = 1 ∧
    braceNet "\x7b\"s\":\"\x7d" = 0 ∧
    loads ("\x7b\"s\":\"\x7d" ++ "\"\x7d") = some (JVal.obj [("s", JVal.str "\x7d")]) ∧
    receive_messages ["\x7b\"s\":\"\x7d", "\"\x7d"] 0 []
      = ⟨[], .decodeError "\x7b\"s\":\"\x7d"⟩ :=
  ⟨rfl, rfl, rfl, rfl, rfl⟩

/-- C2 (amended): a fragment that fails to parse and whose naive brace or
bracket count — taken over all characters of the fragment, string literal
contents included — is net-open is retained as carry and prepended to the
next fragment, so a JSON object split across two chunks yields exactly one
parsed event. -/
theorem receive_messages_buffers_split_object (c1 c2 : String) (v : JVal)
    (rc : Int) (sl : List String)
    (h1 : pyStrip c1 ≠ "")
    (h2 : loads (pyStrip c1) = none)
    (h3 : startsJson (pyStrip c1) = true)
    (h4 : braceNet (pyStrip c1) > 0 ∨ bracketNet (pyStrip c1) > 0)
    (h5 : pyStrip c2 ≠ "")
    (h6 : loads (pyStrip c1 ++ pyStrip c2) = some v) :
    processChunks initReadState [c1] = .ok ⟨pyStrip c1, []⟩ ∧
    (receive_messages [c1, c2] rc sl).yields = [v] := by
  have e1 : processChunk initReadState c1 = .ok ⟨pyStrip c1, []⟩ :=
    processChunk_buffers initReadState c1 h1 h2 h3 h4
  have e2 : processChunk ⟨pyStrip c1, []⟩ c2 = .ok ⟨"", [v]⟩ :=
    processChunk_yields ⟨pyStrip c1, []⟩ c2 v h5 h6
  constructor
  · unfold processChunks
    rw [e1]
    rfl
  · unfold receive_messages
    have echunks : processChunks initReadState [c1, c2] = .ok ⟨"", [v]⟩ := by
      unfold processChunks
      rw [e1]
      unfold processChunks
      rw [e2]
      rfl
    rw [echunks]
    exact afterStream_yields [v] rc sl

/-- C2 witness: a two-chunk split of `\x7b"a":1\x7d` yields the single
object. -/
theorem receive_messages_buffers_split_object_witness :
    processChunks initReadState ["\x7b\"a\":"] = .ok ⟨"\x7b\"a\":", []⟩ ∧
    (receive_messages ["\x7b\"a\":", "1\x7d"] 0 []).yields
      = [JVal.obj [("a", JVal.num 1)]] :=
  receive_messages_buffers_split_object "\x7b\"a\":" "1\x7d"
    (JVal.obj [("a", JVal.num 1)]) 0 [] (by decide) rfl rfl
    (Or.inl (by decide)) (by decide) rfl

/-- C3 counterexample: after the malformed single-line segment `\x7bbad\x7d`
the generator raises `CLIJSONDecodeError` and terminates, so the valid line
`\x7b"a":1\x7d` delivered right after it is never parsed or yielded, while
the claim expects it to still reach the consumer. -/
theorem receive_messages_malformed_then_valid_counterexample :
    loads "\x7b\"a\":1\x7d" = some (JVal.obj [("a", JVal.num 1)]) ∧
    receive_messages ["\x7bbad\x7d", "\x7b\"a\":1\x7d"] 0 []
      = ⟨[], .decodeError "\x7bbad\x7d"⟩ :=
  ⟨rfl, rfl⟩

/-- C3 (amended): a complete single-line segment (naive brace/bracket count
balanced, nonempty, starting with a brace or bracket) that is not valid JSON
makes `receive_messages` raise a decode error carrying the offending text and
terminate: whatever chunks follow are never processed and nothing more is
yielded. -/
theorem receive_messages_decode_error_terminal (c : String) (rest : List String)
    (rc : Int) (sl : List String)
    (h1 : pyStrip c ≠ "")
    (h2 : loads (pyStrip c) = none)
    (h3 : startsJson (pyStrip c) = true)
    (h4 : ¬ (braceNet (pyStrip c) > 0 ∨ bracketNet (pyStrip c) > 0)) :
    receive_messages (c :: rest) rc sl = ⟨[], .decodeError (pyStrip c)⟩ := by
  have e1 : processChunk initReadState c = .error (⟨"", []⟩, pyStrip c) :=
    processChunk_raises initReadState c h1 h2 h3 h4
  unfold receive_messages
  unfold processChunks
  rw [e1]

/-- C3 witness: a malformed balanced line followed by a valid line ends in a
decode error with no yields. -/
theorem receive_messages_decode_error_terminal_witness :
    receive_messages ["\x7bnope\x7d", "\x7b\"b\":2\x7d"] 0 []
      = ⟨[], .decodeError "\x7bnope\x7d"⟩ :=
  receive_messages_decode_error_terminal "\x7bnope\x7d" ["\x7b\"b\":2\x7d"] 0 []
    (by decide) rfl rfl (by decide)

/-- C4: at end of stream a non-empty carry is reparsed exactly once; because
the carry was stored only after a failed parse it is still invalid, and the
invariant guarantees it starts with a brace or bracket, so `receive_messages`
signals a decode error carrying the offending text for every non-empty carry;
had the reparse succeeded, the parsed value would have been yielded. -/
theorem receive_messages_final_carry (chunks : List String) (rc : Int)
    (sl : List String) (st : ReadState)
    (h : processChunks initReadState chunks = .ok st)
    (hb : st.json_buffer ≠ "") :
    loads st.json_buffer = none ∧
    receive_messages chunks rc sl = ⟨st.yields, .decodeError st.json_buffer⟩ ∧
    (∀ v, loads st.json_buffer = some v →
      (receive_messages chunks rc sl).yields = st.yields ++ [v]) := by
  have hinv := processChunks_inv chunks initReadState st h (Or.inl rfl)
  rcases hinv with he | ⟨hs, hn⟩
  · exact absurd he hb
  · refine ⟨hn, ?_, ?_⟩
    · unfold receive_messages
      rw [h]
      simp only [if_neg hb, hn, hs, if_true]
    · intro v hv
      rw [hn] at hv
      cases hv

/-- C4 witness: a run ending with the unparseable carry `\x7b"a":` signals a
decode error carrying exactly that text. -/
theorem receive_messages_final_carry_witness :
    receive_messages ["\x7b\"a\":"] 0 [] = ⟨[], .decodeError "\x7b\"a\":"⟩ :=
  (receive_messages_final_carry ["\x7b\"a\":"] 0 [] ⟨"\x7b\"a\":", []⟩ rfl
    (by decide)).2.1

/-- A lifecycle call keeps the attributes fully connected or fully
disconnected. -/
theorem applyOp_all_or_nothing (st : TransportState) (op : TransportOp)
    (hinv : fullyConnectedB st = true ∨ fullyDisconnectedB st = true) :
    fullyConnectedB (applyOp st op) = true ∨
      fullyDisconnectedB (applyOp st op) = true := by
  cases op with
  | connectOp prompt sp =>
    unfold applyOp connect
    by_cases hp : st.process.isSome
    · simp only [hp, if_true]
      exact hinv
    · simp only [hp, if_false, Bool.false_eq_true]
      cases sp with
      | ok => left; rfl
      | fileNotFound => exact hinv
      | otherFailure => exact hinv
  | disconnectOp =>
    unfold applyOp disconnect
    by_cases hn : st.process.isNone
    · simp only [hn, if_true]
      rcases hinv with hc | hd
      · exfalso
        unfold fullyConnectedB at hc
        simp only [Bool.and_eq_true] at hc
        rw [Option.isNone_iff_eq_none] at hn
        rw [hn] at hc
        simp at hc
      · exact Or.inr hd
    · simp only [hn, if_false, Bool.false_eq_true]
      right; rfl

/-- Every state reachable by completed lifecycle calls is fully connected or
fully disconnected. -/
theorem applyOps_all_or_nothing (ops : List TransportOp) :
    ∀ st : TransportState,
      fullyConnectedB st = true ∨ fullyDisconnectedB st = true →
      fullyConnectedB (ops.foldl applyOp st) = true ∨
        fullyDisconnectedB (ops.foldl applyOp st) = true := by
  induction ops with
  | nil => intro st h; exact h
  | cons op rest ih =>
    intro st h
    exact ih (applyOp st op) (applyOp_all_or_nothing st op h)

/-- C5 counterexample: after a successful `connect` from the fresh state the
process handle and both stream wrappers are set, but stdin is not open: the
prompt was written to it and it was closed before `connect` returned, so
"after connect() returns all three standard streams are open" fails. -/
theorem connect_stdin_closed_counterexample :
    connect "hi" initialTransportState SpawnOutcome.ok
      = .ok (⟨some ⟨true, true, true, false⟩, true, true⟩, ["hi\n"]) ∧
    (⟨true, true, true, false⟩ : ProcHandle).stdin_open = false :=
  ⟨rfl, rfl⟩

/-- C5 (amended): every attribute state reachable by completed `connect` and
`disconnect` calls is fully connected (process handle plus stdout and stderr
wrappers set; stdin was closed after the prompt was written) or fully
disconnected (all cleared); a successful `connect` from a disconnected state
establishes the fully connected state with stdin closed, and `disconnect`
always leaves the fully disconnected state. -/
theorem connect_disconnect_all_or_nothing (ops : List TransportOp)
    (prompt : String) (st : TransportState) (hst : st.process = none) :
    (fullyConnectedB (ops.foldl applyOp initialTransportState) = true ∨
      fullyDisconnectedB (ops.foldl applyOp initialTransportState) = true) ∧
    connect prompt st SpawnOutcome.ok
      = .ok (⟨some ⟨true, true, true, false⟩, true, true⟩, [prompt ++ "\n"]) ∧
    fullyDisconnectedB (disconnect (ops.foldl applyOp initialTransportState)) = true := by
  have hreach := applyOps_all_or_nothing ops initialTransportState (Or.inr rfl)
  refine ⟨hreach, ?_, ?_⟩
  · unfold connect
    rw [hst]
    rfl
  · rcases hreach with hc | hd
    · unfold fullyConnectedB at hc
      simp only [Bool.and_eq_true, Option.isSome_iff_exists] at hc
      obtain ⟨⟨⟨p, hp⟩, _⟩, _⟩ := hc
      unfold disconnect
      rw [hp]
      rfl
    · have hn : (ops.foldl applyOp initialTransportState).process = none := by
        unfold fullyDisconnectedB at hd
        simp only [Bool.and_eq_true, Option.isNone_iff_eq_none] at hd
        exact hd.1.1
      unfold disconnect
      rw [hn]
      simpa using hd

/-- C5 witness: a connect followed by a disconnect from the fresh state. -/
theorem connect_disconnect_all_or_nothing_witness :
    (fullyConnectedB
        ([TransportOp.connectOp "p" SpawnOutcome.ok,
          TransportOp.disconnectOp].foldl applyOp initialTransportState) = true ∨
      fullyDisconnectedB
        ([TransportOp.connectOp "p" SpawnOutcome.ok,
          TransportOp.disconnectOp].foldl applyOp initialTransportState) = true) ∧
    connect "p" initialTransportState SpawnOutcome.ok
      = .ok (⟨some ⟨true, true, true, false⟩, true, true⟩, ["p\n"]) :=
  ⟨(connect_disconnect_all_or_nothing
      [TransportOp.connectOp "p" SpawnOutcome.ok, TransportOp.disconnectOp]
      "p" initialTransportState rfl).1,
   (connect_disconnect_all_or_nothing
      [TransportOp.connectOp "p" SpawnOutcome.ok, TransportOp.disconnectOp]
      "p" initialTransportState rfl).2.1⟩

/-- C6 counterexample: with exit code 1 and stderr line "Error: boom" the
code raises `ProcessError` because it lowercases stderr before the substring
test, while the collected stderr does not contain the literal "error" the
claim requires. -/
theorem process_error_lowercase_counterexample :
    receive_messages [] 1 ["Error: boom"] = ⟨[], .processError 1 "Error: boom"⟩ ∧
    containsSub "Error: boom" "error" = false :=
  ⟨rfl, rfl⟩

/-- C6 (amended): when the stream was fully consumed (no decode error, empty
carry), `receive_messages` raises `ProcessError` — carrying the exit code and
the collected stderr — if and only if the exit code is nonzero and the
collected stderr is nonempty and contains "error" case-insensitively; in
particular a clean zero exit ends the stream normally. -/
theorem receive_messages_process_error_iff (chunks : List String) (rc : Int)
    (sl : List String) (st : ReadState)
    (h : processChunks initReadState chunks = .ok st)
    (hb : st.json_buffer = "") :
    ((receive_messages chunks rc sl).ends
        = .processError rc (stderrJoined sl) ↔
      (rc ≠ 0 ∧ stderrJoined sl ≠ "" ∧
        containsSub (pyLower (stderrJoined sl)) "error" = true)) ∧
    (rc = 0 → (receive_messages chunks rc sl).ends = .normal) := by
  have hrw : receive_messages chunks rc sl = afterStream st.yields rc sl := by
    unfold receive_messages
    simp only [h]
    rw [if_pos hb]
  rw [hrw]
  simp only [afterStream]
  constructor
  · by_cases hC : rc ≠ 0 ∧ stderrJoined sl ≠ "" ∧
      containsSub (pyLower (stderrJoined sl)) "error" = true
    · rw [if_pos hC]
      exact ⟨fun _ => hC, fun _ => rfl⟩
    · rw [if_neg hC]
      exact ⟨fun he => (nomatch he), fun hc => absurd hc hC⟩
  · intro h0
    rw [if_neg (by rintro ⟨h1, _⟩; exact h1 h0)]

/-- C6 witness: exit code 2 with stderr "fatal error" raises `ProcessError`
carrying exactly that exit code and stderr. -/
theorem receive_messages_process_error_iff_witness :
    (receive_messages [] 2 ["fatal error"]).ends = .processError 2 "fatal error" :=
  ((receive_messages_process_error_iff [] 2 ["fatal error"] initReadState rfl rfl).1).mpr
    ⟨by decide, by decide, rfl⟩

/-- When no probed path exists, glob hits never satisfy the existence test. -/
theorem findGlobHit_none (env : CLIEnv) (hnone : ∀ p, env.pathExists p = false) :
    ∀ gs : List String, findGlobHit env gs = none := by
  intro gs
  induction gs with
  | nil => rfl
  | cons g rest ih =>
    unfold findGlobHit
    rw [hnone g]
    simpa using ih

/-- When no probed path exists, the well-known-location probe fails. -/
theorem findFromLocations_none (env : CLIEnv) (hnone : ∀ p, env.pathExists p = false) :
    ∀ ps : List String, findFromLocations env ps = none := by
  intro ps
  induction ps with
  | nil => rfl
  | cons p rest ih =>
    unfold findFromLocations
    by_cases hs : hasStar p = true
    · rw [if_pos hs, findGlobHit_none env hnone]
      exact ih
    · rw [if_neg hs, hnone p]
      simpa using ih

/-- C7: when neither a PATH entry named `claude` nor any probed install path
exists, `_find_cli` raises `CLINotFoundError` whose installation-guidance
message depends on whether `node` is installed, the two messages are
distinct and both carry installation guidance; at spawn time a
`FileNotFoundError` maps to `CLINotFoundError` and any other spawn failure
to `CLIConnectionError`. -/
theorem find_cli_error_distinctions (env : CLIEnv) (home prompt : String)
    (st : TransportState)
    (hclaude : env.which "claude" = none)
    (hnone : ∀ p, env.pathExists p = false)
    (hst : st.process = none) :
    find_cli env home
      = .error (if (env.which "node").isSome then cliMissingMessage
                else nodeMissingMessage) ∧
    cliMissingMessage ≠ nodeMissingMessage ∧
    containsSub nodeMissingMessage "npm install -g @anthropic-ai/claude-code" = true ∧
    containsSub cliMissingMessage "npm install -g @anthropic-ai/claude-code" = true ∧
    connect prompt st SpawnOutcome.fileNotFound = .error .cliNotFound ∧
    connect prompt st SpawnOutcome.otherFailure = .error .connectionError := by
  refine ⟨?_, by decide, by decide, by decide, ?_, ?_⟩
  · unfold find_cli
    rw [hclaude, findFromLocations_none env hnone]
    by_cases hn : (env.which "node").isSome = true
    · rw [if_pos hn, if_pos hn]
    · rw [if_neg hn, if_neg hn]
  · unfold connect
    rw [hst]
    rfl
  · unfold connect
    rw [hst]
    rfl

/-- C7 witness: an environment with nothing installed reports the
Node.js-missing guidance, and the spawn-failure mappings hold from the fresh
state. -/
theorem find_cli_error_distinctions_witness :
    find_cli ⟨fun _ => none, fun _ => false, fun _ => false, fun _ => []⟩ "/root"
      = .error nodeMissingMessage ∧
    connect "p" initialTransportState SpawnOutcome.fileNotFound
      = .error .cliNotFound ∧
    connect "p" initialTransportState SpawnOutcome.otherFailure
      = .error .connectionError :=
  ⟨(find_cli_error_distinctions
      ⟨fun _ => none, fun _ => false, fun _ => false, fun _ => []⟩
      "/root" "p" initialTransportState rfl (fun _ => rfl) rfl).1,
   (find_cli_error_distinctions
      ⟨fun _ => none, fun _ => false, fun _ => false, fun _ => []⟩
      "/root" "p" initialTransportState rfl (fun _ => rfl) rfl).2.2.2.2.1,
   (find_cli_error_distinctions
      ⟨fun _ => none, fun _ => false, fun _ => false, fun _ => []⟩
      "/root" "p" initialTransportState rfl (fun _ => rfl) rfl).2.2.2.2.2⟩

/-- C8: both prompt-delivery modes are implemented: the stateful transport
places the prompt on the argument vector (`-p <content>` right after the
executable, for every session state, stream mode and option record), while
the streaming transport's `_build_command` never receives the prompt and
`connect` delivers it by writing `prompt + "\n"` to the subprocess's stdin. -/
theorem prompt_delivery_modes (prompt cli_path : String) (sess : SessionState)
    (stream : Bool) (o : CCOptions) (st : TransportState)
    (hst : st.process = none) :
    (build_message_command cli_path prompt sess stream o).get? 1 = some "-p" ∧
    (build_message_command cli_path prompt sess stream o).get? 2 = some prompt ∧
    (build_command cli_path o).get? 0 = some cli_path ∧
    connect prompt st SpawnOutcome.ok
      = .ok (⟨some ⟨true, true, true, false⟩, true, true⟩, [prompt ++ "\n"]) := by
  refine ⟨rfl, rfl, rfl, ?_⟩
  unfold connect
  rw [hst]
  rfl

/-- C8 witness: concrete prompt delivered on argv by the stateful command and
over stdin by the streaming connect. -/
theorem prompt_delivery_modes_witness :
    (build_message_command "/usr/bin/claude" "hello"
        ⟨none, none, false⟩ true ⟨"", "", [], 0, [], "", "", "", false, "", none⟩).get? 1
      = some "-p" ∧
    (build_message_command "/usr/bin/claude" "hello"
        ⟨none, none, false⟩ true ⟨"", "", [], 0, [], "", "", "", false, "", none⟩).get? 2
      = some "hello" ∧
    connect "hello" initialTransportState SpawnOutcome.ok
      = .ok (⟨some ⟨true, true, true, false⟩, true, true⟩, ["hello\n"]) :=
  ⟨(prompt_delivery_modes "hello" "/usr/bin/claude" ⟨none, none, false⟩ true
      ⟨"", "", [], 0, [], "", "", "", false, "", none⟩ initialTransportState rfl).1,
   (prompt_delivery_modes "hello" "/usr/bin/claude" ⟨none, none, false⟩ true
      ⟨"", "", [], 0, [], "", "", "", false, "", none⟩ initialTransportState rfl).2.1,
   (prompt_delivery_modes "hello" "/usr/bin/claude" ⟨none, none, false⟩ true
      ⟨"", "", [], 0, [], "", "", "", false, "", none⟩ initialTransportState rfl).2.2.2⟩

/-- One step either overrides the accumulator independently of its value or
leaves any accumulator unchanged. -/
theorem sessionIdStep_cases (a b : Option String) (m : JVal) :
    sessionIdStep a m = sessionIdStep b m ∨
    (sessionIdStep a m = a ∧ sessionIdStep b m = b) := by
  unfold sessionIdStep
  by_cases hr : isResultType m = true
  · simp only [hr, if_true]
    cases hg : jGet m "session_id" with
    | none => exact Or.inr ⟨rfl, rfl⟩
    | some v =>
      cases v with
      | str sid => exact Or.inl rfl
      | null => exact Or.inr ⟨rfl, rfl⟩
      | bool x => exact Or.inr ⟨rfl, rfl⟩
      | num x => exact Or.inr ⟨rfl, rfl⟩
      | arr x => exact Or.inr ⟨rfl, rfl⟩
      | obj x => exact Or.inr ⟨rfl, rfl⟩
  · simp only [hr]
    exact Or.inr ⟨by simp, by simp⟩

/-- The latest-result-session-id fold is insensitive to its initial
accumulator, except when no step ever overrides it. -/
theorem lastRSIFrom_cases (msgs : List JVal) :
    ∀ a b : Option String,
      lastResultSessionIdFrom a msgs = lastResultSessionIdFrom b msgs ∨
      (lastResultSessionIdFrom a msgs = a ∧ lastResultSessionIdFrom b msgs = b) := by
  induction msgs with
  | nil => intro a b; exact Or.inr ⟨rfl, rfl⟩
  | cons m rest ih =>
    intro a b
    show lastResultSessionIdFrom (sessionIdStep a m) rest
        = lastResultSessionIdFrom (sessionIdStep b m) rest ∨ _
    rcases sessionIdStep_cases a b m with heq | ⟨ha, hb⟩
    · rw [heq]
      rcases ih (sessionIdStep b m) (sessionIdStep b m) with h1 | ⟨h1, h2⟩
      · exact Or.inl h1
      · exact Or.inl (h1.trans h2.symm)
    · rcases ih (sessionIdStep a m) (sessionIdStep b m) with h1 | ⟨h1, h2⟩
      · exact Or.inl h1
      · exact Or.inr ⟨h1.trans ha, h2.trans hb⟩

/-- The streamed session updates track the latest-result-session-id fold on
both stored ids. -/
theorem fold_update_ids (msgs : List JVal) :
    ∀ sess : SessionState,
      (msgs.foldl update_on_stream_message sess).original_session_id
        = lastResultSessionIdFrom sess.original_session_id msgs ∧
      (msgs.foldl update_on_stream_message sess).current_session_id
        = lastResultSessionIdFrom sess.current_session_id msgs := by
  induction msgs with
  | nil => intro sess; exact ⟨rfl, rfl⟩
  | cons m rest ih =>
    intro sess
    show (rest.foldl update_on_stream_message (update_on_stream_message sess m)).original_session_id
        = lastResultSessionIdFrom (sessionIdStep sess.original_session_id m) rest ∧
      (rest.foldl update_on_stream_message (update_on_stream_message sess m)).current_session_id
        = lastResultSessionIdFrom (sessionIdStep sess.current_session_id m) rest
    have hstep :
        (update_on_stream_message sess m).original_session_id
          = sessionIdStep sess.original_session_id m ∧
        (update_on_stream_message sess m).current_session_id
          = sessionIdStep sess.current_session_id m := by
      unfold update_on_stream_message sessionIdStep
      by_cases hr : isResultType m = true
      · simp only [hr, if_true]
        cases hg : jGet m "session_id" with
        | none => exact ⟨rfl, rfl⟩
        | some v =>
          cases v <;> exact ⟨rfl, rfl⟩
      · simp only [hr]
        simp
    obtain ⟨h1, h2⟩ := ih (update_on_stream_message sess m)
    rw [h1, h2, hstep.1, hstep.2]
    exact ⟨rfl, rfl⟩

/-- The streamed session updates mark messages as sent exactly when a result
envelope was seen. -/
theorem fold_update_sent (msgs : List JVal) :
    ∀ sess : SessionState,
      (msgs.foldl update_on_stream_message sess).has_sent_messages
        = (sess.has_sent_messages || msgs.any isResultType) := by
  induction msgs with
  | nil => intro sess; simp
  | cons m rest ih =>
    intro sess
    show (rest.foldl update_on_stream_message (update_on_stream_message sess m)).has_sent_messages = _
    rw [ih (update_on_stream_message sess m)]
    have hstep : (update_on_stream_message sess m).has_sent_messages
        = (sess.has_sent_messages || isResultType m) := by
      unfold update_on_stream_message
      cases hr : isResultType m with
      | true =>
        rw [if_pos rfl]
        cases hg : jGet m "session_id" with
        | none => simp
        | some v => cases v <;> simp
      | false => simp
    rw [hstep, List.any_cons, Bool.or_assoc]

/-- A latest-result-session-id that overrode the empty accumulator comes from
some result envelope in the stream. -/
theorem lastRSI_some_any (msgs : List JVal) :
    ∀ a : Option String, ∀ sid : String,
      lastResultSessionIdFrom a msgs = some sid →
      a = some sid ∨ msgs.any isResultType = true := by
  induction msgs with
  | nil => intro a sid h; exact Or.inl h
  | cons m rest ih =>
    intro a sid h
    by_cases hr : isResultType m = true
    · right
      rw [List.any_cons, hr]
      rfl
    · have hstep : sessionIdStep a m = a := by
        unfold sessionIdStep
        simp only [hr]
        simp
      have h1 : lastResultSessionIdFrom (sessionIdStep a m) rest = some sid := h
      rw [hstep] at h1
      rcases ih a sid h1 with h2 | h2
      · exact Or.inl h2
      · right
        rw [List.any_cons, h2]
        simp

/-- With a truthy stored original session id and messages already sent, the
message command carries `--resume <id>` right after `-p <content>`. -/
theorem build_message_command_resume (cli content : String) (sess : SessionState)
    (stream : Bool) (o : CCOptions) (sid : String)
    (ho : sess.original_session_id = some sid) (hne : sid ≠ "")
    (hs : sess.has_sent_messages = true) :
    (build_message_command cli content sess stream o).get? 3 = some "--resume" ∧
    (build_message_command cli content sess stream o).get? 4 = some sid := by
  have hres : resumeArgs sess = ["--resume", sid] := by
    unfold resumeArgs
    rw [ho]
    show (if sid ≠ "" ∧ sess.has_sent_messages = true then ["--resume", sid] else []) = _
    rw [if_pos ⟨hne, hs⟩]
  unfold build_message_command
  rw [hres]
  exact ⟨rfl, rfl⟩

/-- C9: the most recent `session_id` carried by a result/response envelope is
authoritative: a streamed result envelope carrying a session id overwrites
both stored ids, the simple-response path does the same for any response
carrying a session id, and after a stream of messages both stored ids equal
the latest result session id, which is exactly the value the next message
command passes to `--resume` (for nonempty ids, Python truthiness). -/
theorem session_id_authoritative (sess : SessionState) (msgs : List JVal)
    (m resp : JVal) (sid cli content : String) (o : CCOptions) (stream : Bool)
    (hm1 : isResultType m = true)
    (hm2 : jGet m "session_id" = some (JVal.str sid))
    (hr : jGet resp "session_id" = some (JVal.str sid))
    (hlast : lastResultSessionId msgs = some sid)
    (hne : sid ≠ "") :
    update_on_stream_message sess m = ⟨some sid, some sid, true⟩ ∧
    update_on_simple_response sess resp = ⟨some sid, some sid, true⟩ ∧
    (msgs.foldl update_on_stream_message sess).original_session_id = some sid ∧
    (msgs.foldl update_on_stream_message sess).current_session_id = some sid ∧
    (build_message_command cli content (msgs.foldl update_on_stream_message sess)
        stream o).get? 3 = some "--resume" ∧
    (build_message_command cli content (msgs.foldl update_on_stream_message sess)
        stream o).get? 4 = some sid := by
  have hids := fold_update_ids msgs sess
  have horig : (msgs.foldl update_on_stream_message sess).original_session_id = some sid := by
    rw [hids.1]
    rcases lastRSIFrom_cases msgs none sess.original_session_id with heq | ⟨h1, _⟩
    · rw [← heq]; exact hlast
    · exact absurd (h1.symm.trans hlast) (by simp)
  have hcur : (msgs.foldl update_on_stream_message sess).current_session_id = some sid := by
    rw [hids.2]
    rcases lastRSIFrom_cases msgs none sess.current_session_id with heq | ⟨h1, _⟩
    · rw [← heq]; exact hlast
    · exact absurd (h1.symm.trans hlast) (by simp)
  have hsent : (msgs.foldl update_on_stream_message sess).has_sent_messages = true := by
    rw [fold_update_sent msgs sess]
    rcases lastRSI_some_any msgs none sid hlast with h1 | h1
    · exact absurd h1 (by simp)
    · rw [h1]; simp
  refine ⟨?_, ?_, horig, hcur, ?_, ?_⟩
  · unfold update_on_stream_message
    rw [if_pos hm1, hm2]
  · unfold update_on_simple_response
    rw [hr]
  · exact (build_message_command_resume cli content _ stream o sid horig hne hsent).1
  · exact (build_message_command_resume cli content _ stream o sid horig hne hsent).2

/-- C9 witness: two result envelopes with session ids "s1" then "s2"; both
stored ids end as "s2" and the next command resumes with "s2". -/
theorem session_id_authoritative_witness :
    (([JVal.obj [("type", JVal.str "result"), ("session_id", JVal.str "s1")],
       JVal.obj [("type", JVal.str "result"), ("session_id", JVal.str "s2")]].foldl
        update_on_stream_message ⟨none, none, false⟩)).original_session_id = some "s2" ∧
    (build_message_command "/usr/bin/claude" "hi"
        ([JVal.obj [("type", JVal.str "result"), ("session_id", JVal.str "s1")],
          JVal.obj [("type", JVal.str "result"), ("session_id", JVal.str "s2")]].foldl
          update_on_stream_message ⟨none, none, false⟩) false
        ⟨"", "", [], 0, [], "", "", "", false, "", none⟩).get? 4 = some "s2" :=
  ⟨(session_id_authoritative ⟨none, none, false⟩
      [JVal.obj [("type", JVal.str "result"), ("session_id", JVal.str "s1")],
       JVal.obj [("type", JVal.str "result"), ("session_id", JVal.str "s2")]]
      (JVal.obj [("type", JVal.str "result"), ("session_id", JVal.str "s2")])
      (JVal.obj [("type", JVal.str "result"), ("session_id", JVal.str "s2")])
      "s2" "/usr/bin/claude" "hi" ⟨"", "", [], 0, [], "", "", "", false, "", none⟩
      false rfl rfl rfl rfl (by decide)).2.2.1,
   (session_id_authoritative ⟨none, none, false⟩
      [JVal.obj [("type", JVal.str "result"), ("session_id", JVal.str "s1")],
       JVal.obj [("type", JVal.str "result"), ("session_id", JVal.str "s2")]]
      (JVal.obj [("type", JVal.str "result"), ("session_id", JVal.str "s2")])
      (JVal.obj [("type", JVal.str "result"), ("session_id", JVal.str "s2")])
      "s2" "/usr/bin/claude" "hi" ⟨"", "", [], 0, [], "", "", "", false, "", none⟩
      false rfl rfl rfl rfl (by decide)).2.2.2.2.2⟩

/-- C10: for both SDK-MCP bridge transports, `close` is idempotent — a
second `close` is the identity, so starting from a fresh transport `onclose`
fires at most once — and any `send` after a `close` raises
`RuntimeError("Transport is closed")` without forwarding anything to the
`send_mcp_message` callback. -/
theorem sdk_control_close_idempotent_send_gated {μ : Type}
    (st : ControlTransportState μ) (m : μ)
    (hfresh : st.is_closed = false) (hzero : st.onclose_calls = 0) :
    client_close (client_close st) = client_close st ∧
    server_close (server_close st) = server_close st ∧
    (client_close st).onclose_calls ≤ 1 ∧
    (server_close st).onclose_calls ≤ 1 ∧
    client_send (client_close st) m = .error "Transport is closed" ∧
    server_send (server_close st) m = .error "Transport is closed" ∧
    (client_send (client_close st) m).isOk = false ∧
    (server_send (server_close st) m).isOk = false := by
  have hc : client_close st =
      { st with
        is_closed := true,
        onclose_calls :=
          if st.onclose_set then st.onclose_calls + 1 else st.onclose_calls } := by
    unfold client_close
    rw [hfresh]
    rfl
  have hs : server_close st =
      { st with
        is_closed := true,
        onclose_calls :=
          if st.onclose_set then st.onclose_calls + 1 else st.onclose_calls } := by
    unfold server_close
    rw [hfresh]
    rfl
  refine ⟨?_, ?_, ?_, ?_, ?_, ?_, ?_, ?_⟩
  · rw [hc]; rfl
  · rw [hs]; rfl
  · rw [hc, hzero]
    by_cases ho : st.onclose_set = true
    · simp [ho]
    · simp [ho]
  · rw [hs, hzero]
    by_cases ho : st.onclose_set = true
    · simp [ho]
    · simp [ho]
  · rw [hc]; rfl
  · rw [hs]; rfl
  · rw [hc]; rfl
  · rw [hs]; rfl

/-- C10 witness: a fresh transport with a registered `onclose`. -/
theorem sdk_control_close_idempotent_send_gated_witness :
    client_close (client_close (⟨false, true, 0, []⟩ : ControlTransportState Nat))
      = client_close ⟨false, true, 0, []⟩ ∧
    (client_close (⟨false, true, 0, []⟩ : ControlTransportState Nat)).onclose_calls ≤ 1 ∧
    client_send (client_close (⟨false, true, 0, []⟩ : ControlTransportState Nat)) 7
      = .error "Transport is closed" ∧
    server_send (server_close (⟨false, true, 0, []⟩ : ControlTransportState Nat)) 7
      = .error "Transport is closed" :=
  ⟨(sdk_control_close_idempotent_send_gated ⟨false, true, 0, []⟩ 7 rfl rfl).1,
   (sdk_control_close_idempotent_send_gated ⟨false, true, 0, []⟩ 7 rfl rfl).2.2.1,
   (sdk_control_close_idempotent_send_gated ⟨false, true, 0, []⟩ 7 rfl rfl).2.2.2.2.1,
   (sdk_control_close_idempotent_send_gated ⟨false, true, 0, []⟩ 7 rfl rfl).2.2.2.2.2.1⟩
